import Mathlib

/-!
Shallow embedding of the mirage rendering engine (Rust source under src/),
covering: device selection and scoring (src/mirage/device.rs), swapchain
parameter derivation (src/renderer/swap_chain.rs), the GPU asset cache
(src/renderer/gpu_assets.rs), per-frame synchronization and frame-slot
rotation (src/mirage.rs), forward rendering (src/renderer/forward_renderer.rs),
texture upload and layout transitions (src/gpu/gpu.rs,
src/renderer/gpu_texture.rs) and mip-level computation (src/assets/texture.rs).

Vulkan object handles are modelled as natural-number identities drawn from a
monotone allocator, so that distinctness of freshly created GPU objects is
observable. Rust HashMap values are modelled as association lists with
last-insert-wins semantics; `HashMap::insert` returns the previous value at
the key, exactly as in Rust. Process aborts (`unwrap`, `expect`, explicit
panics) are modelled as `none` / `Except.error`.
-/

namespace Mirage

/-! ## Association-list model of Rust HashMap -/

/-- Lookup in the association-list model of `HashMap`: the value stored at
key `k`, if any. -/
def mapGet? {α : Type} (l : List (Nat × α)) (k : Nat) : Option α :=
  (l.find? (fun p => p.1 == k)).map (fun p => p.2)

/-- Rust `HashMap::insert`: stores `v` at key `k` and returns the value
previously stored at `k` (`None` when the key was absent). -/
def mapInsert {α : Type} (l : List (Nat × α)) (k : Nat) (v : α) :
    Option α × List (Nat × α) :=
  (mapGet? l k, (k, v) :: l.filter (fun p => p.1 != k))

/-- Number of entries stored under key `k` (0 or 1 for maps built with
`mapInsert` from the empty map). -/
def mapCount {α : Type} (l : List (Nat × α)) (k : Nat) : Nat :=
  (l.filter (fun p => p.1 == k)).length

/-! ## Physical devices and their scoring (src/src/mirage/device.rs) -/

/-- The `vk::PhysicalDeviceType` values distinguished by
`Device::rate_physical_device_suitability`. -/
inductive PhysicalDeviceType
  | discreteGpu
  | integratedGpu
  | virtualGpu
  | cpu
  | other
deriving DecidableEq, Repr

/-- One entry of `get_physical_device_queue_family_properties`, together with
the surface-support bit `get_physical_device_surface_support` reports for this
family index. -/
structure QueueFamilyProperties where
  graphics : Bool
  compute : Bool
  presentSupport : Bool
deriving DecidableEq, Repr

/-- Surface pixel formats relevant to `SwapChain::choose_surface_format`:
the preferred `B8G8R8A8_SRGB` plus other possible values. -/
inductive VkFormat
  | b8g8r8a8Srgb
  | b8g8r8a8Unorm
  | r8g8b8a8Srgb
  | r5g6b5Unorm
deriving DecidableEq, Repr

/-- Color spaces relevant to `SwapChain::choose_surface_format`. -/
inductive ColorSpace
  | srgbNonlinear
  | displayP3
  | hdr10
deriving DecidableEq, Repr

/-- A `vk::SurfaceFormatKHR` entry. -/
structure SurfaceFormat where
  format : VkFormat
  colorSpace : ColorSpace
deriving DecidableEq, Repr

/-- A `vk::PresentModeKHR` value. -/
inductive PresentMode
  | immediate
  | fifo
  | fifoRelaxed
  | mailbox
deriving DecidableEq, Repr

/-- The data about one physical device consumed by
`Device::rate_physical_device_suitability` and `Device::pick_physical_device`:
its properties, features, queue-family table, extension support and the
surface support query results for the target surface. -/
structure PhysicalDevice where
  deviceType : PhysicalDeviceType
  maxImageDimension2D : Nat
  queueFamilies : List QueueFamilyProperties
  extensionsSupported : Bool
  samplerAnisotropy : Bool
  surfaceFormats : List SurfaceFormat
  surfacePresentModes : List PresentMode
deriving DecidableEq, Repr

/-- First loop of `Device::find_queue_families`: scan graphics-capable
families; remember the first one, and break as soon as one also supports
presentation, assigning it to both roles. -/
def findGraphicPresentLoop :
    List (Nat × QueueFamilyProperties) → Option Nat → Option Nat →
    Option Nat × Option Nat
  | [], g, p => (g, p)
  | (i, q) :: rest, g, p =>
    if q.graphics then
      let g := if g.isNone then some i else g
      if q.presentSupport then (some i, some i)
      else findGraphicPresentLoop rest g p
    else findGraphicPresentLoop rest g p

/-- Second loop of `Device::find_queue_families`: if no present family was
found yet, take the first family with surface support. -/
def findPresentLoop : List (Nat × QueueFamilyProperties) → Option Nat
  | [] => none
  | (i, q) :: rest => if q.presentSupport then some i else findPresentLoop rest

/-- Third loop of `Device::find_queue_families`: remember the first
compute-capable family, and break with the current index as soon as the
remembered compute family differs from the graphics family. -/
def findComputeLoop :
    List (Nat × QueueFamilyProperties) → Option Nat → Option Nat → Option Nat
  | [], _, c => c
  | (i, q) :: rest, g, c =>
    if q.compute then
      let c := if c.isNone then some i else c
      if c ≠ g then some i
      else findComputeLoop rest g c
    else findComputeLoop rest g c

/-- Index the queue-family table by position, as the Rust
`iter().enumerate()` loops do. -/
def enumFamilies (qf : List QueueFamilyProperties) :
    List (Nat × QueueFamilyProperties) :=
  (List.range qf.length).zip qf

/-- `Device::find_queue_families`: resolves the (graphics, present, compute)
family indices for one physical device. -/
def findQueueFamilies (qf : List QueueFamilyProperties) :
    Option Nat × Option Nat × Option Nat :=
  let e := enumFamilies qf
  let (g, p) := findGraphicPresentLoop e none none
  let p := if p.isNone then findPresentLoop e else p
  let c := findComputeLoop e g none
  (g, p, c)

/-- `Device::rate_physical_device_suitability`: +10000 discrete / +1000
integrated / +100 virtual / +10 cpu, plus `max_image_dimension2_d`; the score
is forced to 0 when a queue family role is unassigned, a required device
extension is missing, `sampler_anisotropy` is unsupported, or the surface
format / present mode lists are empty. -/
def ratePhysicalDeviceSuitability (d : PhysicalDevice) : Nat :=
  let base : Nat :=
    match d.deviceType with
    | .discreteGpu => 10000
    | .integratedGpu => 1000
    | .virtualGpu => 100
    | .cpu => 10
    | .other => 0
  let score := base + d.maxImageDimension2D
  let fams := findQueueFamilies d.queueFamilies
  if fams.1.isNone || fams.2.1.isNone || fams.2.2.isNone
      || !d.extensionsSupported || !d.samplerAnisotropy then 0
  else if d.surfaceFormats.isEmpty || d.surfacePresentModes.isEmpty then 0
  else score

/-- Insert into the association-list model of `BTreeMap<u32, PhysicalDevice>`:
an insert with an existing key overwrites the stored device. -/
def btreeInsert (m : List (Nat × PhysicalDevice)) (k : Nat)
    (v : PhysicalDevice) : List (Nat × PhysicalDevice) :=
  (k, v) :: m.filter (fun p => p.1 != k)

/-- `BTreeMap::first_key_value`: the entry with the SMALLEST key. -/
def btreeFirstKeyValue (m : List (Nat × PhysicalDevice)) :
    Option (Nat × PhysicalDevice) :=
  m.foldl
    (fun acc p =>
      match acc with
      | none => some p
      | some q => if p.1 < q.1 then some p else some q)
    none

/-- `Device::pick_physical_device`: collect `(score, device)` pairs into a
`BTreeMap` keyed by score, then take `first_key_value` and require its score
to be positive. `none` models the fatal startup panic. -/
def pickPhysicalDevice (devices : List PhysicalDevice) :
    Option PhysicalDevice :=
  let pointMap :=
    devices.foldl
      (fun m d => btreeInsert m (ratePhysicalDeviceSuitability d) d) []
  match btreeFirstKeyValue pointMap with
  | some (count, d) => if count > 0 then some d else none
  | none => none

/-! ## Swapchain parameter derivation (src/src/renderer/swap_chain.rs) -/

/-- Fields of `vk::SurfaceCapabilitiesKHR` used by the image-count
computation in `SwapChain::create_swap_chain`. -/
structure SurfaceCapabilities where
  minImageCount : Nat
  maxImageCount : Nat
deriving DecidableEq, Repr

/-- Rust `Ord::clamp`: returns `lo` when the value is below, `hi` when above;
asserts `lo ≤ hi` and panics otherwise, modelled as `none`. -/
def rustClamp (x lo hi : Nat) : Option Nat :=
  if lo ≤ hi then some (if x < lo then lo else if x > hi then hi else x)
  else none

/-- Image count requested by `SwapChain::create_swap_chain` (line 114):
`(min_image_count + 1).clamp(min_image_count, max_image_count)`. -/
def swapChainImageCount (caps : SurfaceCapabilities) : Option Nat :=
  rustClamp (caps.minImageCount + 1) caps.minImageCount caps.maxImageCount

/-- `SwapChain::choose_surface_format`: prefer `B8G8R8A8_SRGB` with
`SRGB_NONLINEAR`, otherwise fall back to `surface_formats[0]`; the fallback
indexing panics on an empty list, modelled as `none`. -/
def chooseSurfaceFormat (surfaceFormats : List SurfaceFormat) :
    Option SurfaceFormat :=
  match surfaceFormats.find?
      (fun f =>
        f.format == VkFormat.b8g8r8a8Srgb
          && f.colorSpace == ColorSpace.srgbNonlinear) with
  | some f => some f
  | none => surfaceFormats.get? 0

/-! ## Image layout transitions (src/src/gpu/gpu.rs lines 238-329) -/

/-- The `vk::ImageLayout` values appearing in `GPU::transition_image_layout`
and enough further values to make the unsupported branch meaningful. -/
inductive ImageLayout
  | undefined
  | transferDstOptimal
  | transferSrcOptimal
  | shaderReadOnlyOptimal
  | depthStencilAttachmentOptimal
  | colorAttachmentOptimal
  | presentSrc
  | general
deriving DecidableEq, Repr

/-- Pipeline stage masks chosen by `GPU::transition_image_layout`. -/
inductive PipelineStage
  | topOfPipe
  | transfer
  | vertexAndFragmentShader
  | earlyFragmentTests
deriving DecidableEq, Repr

/-- Access masks chosen by `GPU::transition_image_layout`. -/
inductive AccessMask
  | noAccess
  | transferWrite
  | transferRead
  | shaderRead
  | shaderReadWrite
deriving DecidableEq, Repr

/-- The four mask fields of the barrier recorded by
`GPU::transition_image_layout`. -/
structure BarrierMasks where
  srcStageMask : PipelineStage
  srcAccessMask : AccessMask
  dstStageMask : PipelineStage
  dstAccessMask : AccessMask
deriving DecidableEq, Repr

/-- `GPU::transition_image_layout`: the barrier masks selected for an
`(old_layout, new_layout)` pair; every pair outside the four supported ones
hits the `unsupported layout transition` panic, modelled as `none`. -/
def transitionImageLayoutMasks (oldLayout newLayout : ImageLayout) :
    Option BarrierMasks :=
  if oldLayout == ImageLayout.undefined
      && newLayout == ImageLayout.transferDstOptimal then
    some ⟨.topOfPipe, .noAccess, .transfer, .transferWrite⟩
  else if oldLayout == ImageLayout.transferDstOptimal
      && newLayout == ImageLayout.transferSrcOptimal then
    some ⟨.transfer, .transferWrite, .transfer, .transferRead⟩
  else if oldLayout == ImageLayout.transferDstOptimal
      && newLayout == ImageLayout.shaderReadOnlyOptimal then
    some ⟨.transfer, .transferWrite, .vertexAndFragmentShader, .shaderRead⟩
  else if oldLayout == ImageLayout.undefined
      && newLayout == ImageLayout.depthStencilAttachmentOptimal then
    some ⟨.topOfPipe, .noAccess, .earlyFragmentTests, .shaderReadWrite⟩
  else none

/-- The list of the four `(old, new)` layout pairs accepted by
`GPU::transition_image_layout`. -/
def supportedTransitions : List (ImageLayout × ImageLayout) :=
  [(ImageLayout.undefined, ImageLayout.transferDstOptimal),
   (ImageLayout.transferDstOptimal, ImageLayout.transferSrcOptimal),
   (ImageLayout.transferDstOptimal, ImageLayout.shaderReadOnlyOptimal),
   (ImageLayout.undefined, ImageLayout.depthStencilAttachmentOptimal)]

/-- The `(old, new)` layout pairs `GPUTexture::new`
(src/src/renderer/gpu_texture.rs lines 54-79) passes to
`GPU::transition_image_layout` for a texture with `mipLevels` mip levels:
always undefined to transfer-destination, and additionally
transfer-destination to shader-read-only when only one mip level exists
(with more than one level the mip chain is built by `generate_mipmaps`,
which records its barriers directly). -/
def gpuTextureNewTransitions (mipLevels : Nat) :
    List (ImageLayout × ImageLayout) :=
  (ImageLayout.undefined, ImageLayout.transferDstOptimal) ::
    (if mipLevels > 1 then []
     else [(ImageLayout.transferDstOptimal, ImageLayout.shaderReadOnlyOptimal)])

/-! ## Mip level computation (src/src/assets/texture.rs line 18) -/

/-- Mip-level count computed by `Texture::load`:
`((width.min(height) as f32).log2().floor() + 1.0) as u32`. The composition
of the base-2 logarithm on the exactly-represented integer `min width height`
with `floor` is modelled by the exact integer base-2 logarithm `Nat.log2`. -/
def textureMipLevels (width height : Nat) : Nat :=
  Nat.log2 (Nat.min width height) + 1

/-! ## Decoded CPU-side assets and the asset store (src/src/assets) -/

/-- A handle into the asset store: an opaque numeric id
(src/src/assets/asset_handle.rs; the phantom type tag is erased, the pool
itself is type-erased in the source). -/
structure AssetHandle where
  id : Nat
deriving DecidableEq, Repr

/-- A decoded texture (src/src/assets/texture.rs). Pixel bytes are modelled
as a list of naturals. -/
structure Texture where
  width : Nat
  height : Nat
  mipLevels : Nat
  pixels : List Nat
deriving DecidableEq, Repr

/-- A decoded mesh (src/src/assets/geom.rs). Vertices are opaque values. -/
structure Geom where
  vertices : List Nat
  indices : List Nat
deriving DecidableEq, Repr

/-- A material asset as consumed by the renderer: `ForwardRenderer::render`
reads the optional texture handle `material.tex`, and
`GPUAssets::get_material` reads the same handle via
`material.get_texture("texture")`. -/
structure MaterialAsset where
  tex : Option AssetHandle
deriving DecidableEq, Repr

/-- The value stored in the type-erased pool `HashMap<u32, Box<dyn Any>>` of
`Assets`; the constructor plays the role of the stored concrete type that
`downcast_ref` checks. -/
inductive AssetValue
  | texture (t : Texture)
  | geometry (g : Geom)
  | material (m : MaterialAsset)
deriving DecidableEq, Repr

/-- The asset store `Assets` (src/src/assets/assets.rs): an id-keyed pool of
type-erased decoded assets. -/
structure Assets where
  pool : List (Nat × AssetValue)
deriving DecidableEq, Repr

/-- Panic text of `Option::unwrap` on `None`, raised by `Assets::load` when
the handle id is absent from the pool. -/
def unwrapNoneMsg : String := "called Option::unwrap on a None value"

/-- Resolving a texture handle, as the `assets.load(&handle)?` call sites in
`GPUAssets` consume it: `none` when the id is absent or stores a different
asset kind. -/
def Assets.loadTexture? (a : Assets) (id : Nat) : Option Texture :=
  match mapGet? a.pool id with
  | some (.texture t) => some t
  | _ => none

/-- Resolving a geometry handle for `GPUAssets::get_geom`. -/
def Assets.loadGeom? (a : Assets) (id : Nat) : Option Geom :=
  match mapGet? a.pool id with
  | some (.geometry g) => some g
  | _ => none

/-- Resolving a material handle for `GPUAssets::get_pipeline` /
`GPUAssets::get_material`. -/
def Assets.loadMaterial? (a : Assets) (id : Nat) : Option MaterialAsset :=
  match mapGet? a.pool id with
  | some (.material m) => some m
  | _ => none

/-- `Assets::load` for a material (src/src/assets/assets.rs lines 56-61):
`pool.get(&handle.id).unwrap()` panics when the id is unregistered, and the
following `downcast_ref::<T>().expect(...)` panics when the stored value has
a different type; both aborts are modelled as `Except.error` with the
corresponding panic text. -/
def Assets.loadMaterialPanicking (a : Assets) (id : Nat) :
    Except String MaterialAsset :=
  match mapGet? a.pool id with
  | none => .error unwrapNoneMsg
  | some (.material m) => .ok m
  | some _ => .error ("Asset load failed. " ++ toString id)

/-- `Assets::load` for a texture, with the same two panic modes. -/
def Assets.loadTexturePanicking (a : Assets) (id : Nat) :
    Except String Texture :=
  match mapGet? a.pool id with
  | none => .error unwrapNoneMsg
  | some (.texture t) => .ok t
  | some _ => .error ("Asset load failed. " ++ toString id)

/-- `Assets::load` for a geometry, with the same two panic modes. -/
def Assets.loadGeomPanicking (a : Assets) (id : Nat) :
    Except String Geom :=
  match mapGet? a.pool id with
  | none => .error unwrapNoneMsg
  | some (.geometry g) => .ok g
  | some _ => .error ("Asset load failed. " ++ toString id)

/-! ## Materialized GPU resources (src/src/renderer/gpu_texture.rs,
gpu_geom.rs, gpu_pipeline.rs) -/

/-- `GPUTexture`: image, memory, view and sampler handles. -/
structure GPUTexture where
  image : Nat
  imageMemory : Nat
  imageView : Nat
  imageSampler : Nat
deriving DecidableEq, Repr

/-- `GPUTexture::new`: uploads a decoded texture, creating an image, its
memory, an image view and a sampler, in that order; each Vulkan object
receives a fresh identity from the allocator `c`. The staging buffer and its
memory are created and freed within the call and are not part of the
resulting value. -/
def GPUTexture.new (c : Nat) (_t : Texture) : GPUTexture × Nat :=
  (⟨c, c + 1, c + 2, c + 3⟩, c + 4)

/-- `GPUGeom`: vertex/index buffers, their memories and the index count. -/
structure GPUGeom where
  vertexBuffer : Nat
  vertexBufferMemory : Nat
  indexBuffer : Nat
  indexBufferMemory : Nat
  indicesLength : Nat
deriving DecidableEq, Repr

/-- `GPUGeom::new`: uploads vertex then index data into fresh device-local
buffers (each `create_buffer_with_data` uses an internal staging buffer that
is freed before returning). -/
def GPUGeom.new (c : Nat) (g : Geom) : GPUGeom × Nat :=
  (⟨c, c + 1, c + 2, c + 3, g.indices.length⟩, c + 4)

/-- `GPUPipeline`: shader module, descriptor-set layout, pipeline, pipeline
layout and the per-frame descriptor sets. -/
structure GPUPipeline where
  shaderModule : Nat
  descriptorSetLayout : Nat
  pipeline : Nat
  pipelineLayout : Nat
  descriptorSets : List Nat
deriving DecidableEq, Repr

/-- `GPUPipeline::new`: compiles the shader module, creates the
descriptor-set layout, the pipeline layout and the pipeline, then allocates
`FRAMES_IN_FLIGHT.min(5) = 2` descriptor sets; every object gets a fresh
identity. -/
def GPUPipeline.new (c : Nat) (_m : MaterialAsset) : GPUPipeline × Nat :=
  (⟨c, c + 1, c + 3, c + 2, [c + 4, c + 5]⟩, c + 6)

/-! ## The GPU asset cache (src/src/renderer/gpu_assets.rs) -/

/-- The state of `GPUAssets`: the asset store it borrows, the three pools,
and the GPU object allocator standing for the `Rc<GPU>` device. The pipeline
pool is keyed by asset id and then by render pass, geometry and texture pools
by asset id alone. -/
structure GPUAssets where
  assets : Assets
  pipelinePool : List (Nat × List (Nat × GPUPipeline))
  geomPool : List (Nat × GPUGeom)
  texturePool : List (Nat × GPUTexture)
  gpuCounter : Nat
deriving Repr

/-- `GPUAssets::get_texture` (lines 32-44): on a pool miss, resolve the
decoded texture (the `?` operator propagates a failed resolution as `none`),
materialize it with `GPUTexture::new`, and return the result of
`texture_pool.insert(handle.id, tex_gpu)` — which is the PREVIOUS value at
the key; on a hit, return a copy of the cached value. -/
def GPUAssets.getTexture (s : GPUAssets) (handle : AssetHandle) :
    Option GPUTexture × GPUAssets :=
  match mapGet? s.texturePool handle.id with
  | none =>
    match s.assets.loadTexture? handle.id with
    | none => (none, s)
    | some texture =>
      let (texGpu, c) := GPUTexture.new s.gpuCounter texture
      let (prev, pool) := mapInsert s.texturePool handle.id texGpu
      (prev, { s with texturePool := pool, gpuCounter := c })
  | some tex => (some tex, s)

/-- `GPUAssets::get_geom` (lines 92-104): same shape as `get_texture`, on the
geometry pool. -/
def GPUAssets.getGeom (s : GPUAssets) (handle : AssetHandle) :
    Option GPUGeom × GPUAssets :=
  match mapGet? s.geomPool handle.id with
  | none =>
    match s.assets.loadGeom? handle.id with
    | none => (none, s)
    | some geom =>
      let (geomGpu, c) := GPUGeom.new s.gpuCounter geom
      let (prev, pool) := mapInsert s.geomPool handle.id geomGpu
      (prev, { s with geomPool := pool, gpuCounter := c })
  | some geom => (some geom, s)

/-- `GPUAssets::get_pipeline` (lines 46-63): `pipeline_pool.entry(handle.id)
.or_insert(HashMap::new())` materializes the per-material inner map first;
the inner map is then consulted under the render pass of the target renderer.
On a miss the material is resolved, a pipeline is built against the render
pass, and the result of `pipelines.insert(render_pass, pipeline_gpu)` — the
previous value at that render pass — is returned. -/
def GPUAssets.getPipeline (s : GPUAssets) (handle : AssetHandle)
    (renderPass : Nat) : Option GPUPipeline × GPUAssets :=
  let inner := (mapGet? s.pipelinePool handle.id).getD []
  let s := { s with pipelinePool := (mapInsert s.pipelinePool handle.id inner).2 }
  match mapGet? inner renderPass with
  | none =>
    match s.assets.loadMaterial? handle.id with
    | none => (none, s)
    | some material =>
      let (pipelineGpu, c) := GPUPipeline.new s.gpuCounter material
      let (prev, inner2) := mapInsert inner renderPass pipelineGpu
      (prev,
       { s with
          pipelinePool := (mapInsert s.pipelinePool handle.id inner2).2,
          gpuCounter := c })
  | some pipeline => (some pipeline, s)

/-- A `GPUAssets` value with empty pools over a given store, as built by
`GPUAssets::new`. -/
def GPUAssets.mk0 (a : Assets) (c : Nat) : GPUAssets :=
  ⟨a, [], [], [], c⟩

/-! ## Frame slots and per-frame synchronization (src/src/mirage.rs) -/

/-- `ForwardRenderer::FRAMES_IN_FLIGHT`
(src/src/renderer/forward_renderer.rs line 73). -/
def framesInFlight : Nat := 2

/-- A `vk::Fence` as created by `Mirage::create_sync_objects`; the only
observable creation parameter is the SIGNALED flag. -/
structure Fence where
  signaled : Bool
deriving DecidableEq, Repr

/-- `Mirage::create_sync_objects` (lines 267-309): `count` image-available
semaphores, `count` render-finished semaphores, and `count` fences created
with `FenceCreateFlags::SIGNALED`. Semaphores are identified by their
position. -/
def createSyncObjects (count : Nat) :
    List Nat × List Nat × List Fence :=
  (List.range count, List.range count, List.replicate count ⟨true⟩)

/-- The per-frame host/device commands issued by `Mirage::render`
(lines 105-226), tagged with the frame slot they operate on. -/
inductive FrameEvent
  | waitFence (slot : Nat)
  | acquireImage (slot : Nat)
  | resetFence (slot : Nat)
  | resetCommandBuffer (slot : Nat)
  | beginCommandBuffer (slot : Nat)
  | recordFrame (slot : Nat)
  | endCommandBuffer (slot : Nat)
  | queueSubmit (slot : Nat)
  | queuePresent (slot : Nat)
deriving DecidableEq, Repr

/-- The command sequence of one `Mirage::render` call whose current
`frame_index` is `slot`: wait on the slot fence, acquire a swapchain image,
reset the fence, reset and re-record the slot command buffer, submit with
the fence, present. -/
def renderEvents (slot : Nat) : List FrameEvent :=
  [.waitFence slot, .acquireImage slot, .resetFence slot,
   .resetCommandBuffer slot, .beginCommandBuffer slot, .recordFrame slot,
   .endCommandBuffer slot, .queueSubmit slot, .queuePresent slot]

/-- The final statement of `Mirage::render`:
`frame_index.set((frame_index + 1) % in_flight_fences.len())`, executed
unconditionally once per call. -/
def nextFrameIndex (n slot : Nat) : Nat :=
  (slot + 1) % n

/-- The frame-slot index after `k` completed `Mirage::render` calls, starting
from the initial `frame_index = 0` set by `Mirage::initialize`, with `n`
frame slots. -/
def frameIndexAfter (n : Nat) : Nat → Nat
  | 0 => 0
  | k + 1 => nextFrameIndex n (frameIndexAfter n k)

/-! ## Forward renderer frame recording (src/src/renderer/forward_renderer.rs) -/

/-- The `Pipeline` entry of the renderer pipeline cache
(shader module, descriptor-set layout, pipeline layout, pipeline). -/
structure Pipeline where
  shaderModule : Nat
  descriptorSetLayout : Nat
  pipelineLayout : Nat
  pipeline : Nat
deriving DecidableEq, Repr

/-- A `Shading` cache entry: the shared pipeline plus per-frame descriptor
sets (src/src/renderer/shading.rs as used by forward_renderer.rs). -/
structure Shading where
  pipeline : Pipeline
  pipelineDirty : Bool
  descriptorSets : List Nat
deriving DecidableEq, Repr

/-- The fields of `ShadingDef::load` consulted by `preprocess_material`:
the source constructs `id = 0` and `mode = Unlit` unconditionally
(src/src/renderer/shading_def.rs lines 47-55). -/
inductive ShadingMode
  | unlit
deriving DecidableEq, Repr

/-- The shading definition record produced by `ShadingDef::load`. -/
structure ShadingDefData where
  defId : Nat
  mode : ShadingMode
  depthTest : Bool
  depthWrite : Bool
deriving DecidableEq, Repr

/-- `ShadingDef::load("simple.spv")`. -/
def shadingDefLoad : ShadingDefData :=
  ⟨0, .unlit, true, true⟩

/-- A render object handed to the forward renderer: geometry handle,
material handle, model transform (opaque value)
(src/src/renderer/render_object.rs). -/
structure RenderObject where
  geom : AssetHandle
  material : AssetHandle
  model : Nat
deriving DecidableEq, Repr

/-- The mutable state of `ForwardRenderer` touched while rendering a batch:
the four caches, the scene descriptor sets, and the GPU object allocator. -/
structure RendererState where
  shadingCache : List (Nat × Shading)
  pipelineCache : List (Nat × Pipeline)
  textureCache : List (Nat × GPUTexture)
  geomCache : List (Nat × GPUGeom)
  sceneDescriptorSets : List Nat
  counter : Nat
deriving Repr

/-- GPU commands and descriptor updates recorded by
`ForwardRenderer::render` for a batch. A `descriptorWrite` stands for the
single `update_descriptor_sets` call carrying the texture and sampler writes
for one object. -/
inductive RenderEvent
  | descriptorWrite (setId : Nat) (texView : Nat) (texSampler : Nat)
  | beginRenderPass
  | pushConstants (model : Nat)
  | bindDescriptorSets (sceneSet : Nat) (materialSet : Nat)
  | bindPipeline (p : Nat)
  | bindVertexBuffer (b : Nat)
  | bindIndexBuffer (b : Nat)
  | drawIndexed (indexCount : Nat)
  | endRenderPass
deriving DecidableEq, Repr

/-- `ForwardRenderer::preprocess_material` (lines 343-404): loads the shading
definition (whose mode is always Unlit, so the early `Err` is never taken),
returns early when the shading cache already has the material id, otherwise
creates or reuses the cached pipeline for the definition id, allocates
`FRAMES_IN_FLIGHT` descriptor sets, and stores the `Shading` under the
material id. -/
def preprocessMaterial (fr : RendererState) (materialId : Nat) :
    Except String RendererState :=
  let d := shadingDefLoad
  if d.mode != ShadingMode.unlit then .error "Unsupported ShadingMode"
  else if (mapGet? fr.shadingCache materialId).isSome then .ok fr
  else
    let (pipeline, fr) :=
      match mapGet? fr.pipelineCache d.defId with
      | some p => (p, fr)
      | none =>
        let p : Pipeline :=
          ⟨fr.counter, fr.counter + 1, fr.counter + 2, fr.counter + 3⟩
        (p,
         { fr with
            pipelineCache := (mapInsert fr.pipelineCache d.defId p).2,
            counter := fr.counter + 4 })
    let sets := [fr.counter, fr.counter + 1]
    let fr := { fr with counter := fr.counter + 2 }
    .ok
      { fr with
         shadingCache :=
           (mapInsert fr.shadingCache materialId ⟨pipeline, false, sets⟩).2 }

/-- First per-object loop of `ForwardRenderer::render` (lines 175-223):
preprocess the material (a failure only skips the object), look up its
shading (absence skips), load the material from the asset store (Rust
`Assets::load` panics on failure), skip when the material has no texture,
get-or-create the cached GPU texture (the nested `assets.load` also panics
on failure), and record the descriptor update binding the texture view and
sampler into the per-frame descriptor set. -/
def prepareObject (assets : Assets) (frameIndex : Nat)
    (st : RendererState × List RenderEvent) (obj : RenderObject) :
    Except String (RendererState × List RenderEvent) :=
  let (fr, evs) := st
  match preprocessMaterial fr obj.material.id with
  | .error _ => .ok (fr, evs)
  | .ok fr =>
    match mapGet? fr.shadingCache obj.material.id with
    | none => .ok (fr, evs)
    | some shading =>
      match assets.loadMaterialPanicking obj.material.id with
      | .error e => .error e
      | .ok m =>
        match m.tex with
        | none => .ok (fr, evs)
        | some texHandle =>
          match mapGet? fr.textureCache texHandle.id with
          | some tex =>
            .ok (fr, evs ++
              [.descriptorWrite (shading.descriptorSets.getD frameIndex 0)
                tex.imageView tex.imageSampler])
          | none =>
            match assets.loadTexturePanicking texHandle.id with
            | .error e => .error e
            | .ok t =>
              let (texGpu, c) := GPUTexture.new fr.counter t
              let fr :=
                { fr with
                   textureCache :=
                     (mapInsert fr.textureCache texHandle.id texGpu).2,
                   counter := c }
              .ok (fr, evs ++
                [.descriptorWrite (shading.descriptorSets.getD frameIndex 0)
                  texGpu.imageView texGpu.imageSampler])

/-- The command sequence recorded for one drawable object inside the render
pass: push the model matrix, bind the scene and material descriptor sets,
bind the pipeline, bind vertex and index buffers, draw indexed. -/
def drawEvents (fr : RendererState) (frameIndex : Nat) (shading : Shading)
    (geom : GPUGeom) (obj : RenderObject) : List RenderEvent :=
  [.pushConstants obj.model,
   .bindDescriptorSets (fr.sceneDescriptorSets.getD frameIndex 0)
     (shading.descriptorSets.getD frameIndex 0),
   .bindPipeline shading.pipeline.pipeline,
   .bindVertexBuffer geom.vertexBuffer,
   .bindIndexBuffer geom.indexBuffer,
   .drawIndexed geom.indicesLength]

/-- Second per-object loop of `ForwardRenderer::render` (lines 282-337):
look up the shading (absence skips the object), get-or-create the cached GPU
geometry (the nested `assets.load` panics on failure), and record the draw
commands. -/
def recordObject (assets : Assets) (frameIndex : Nat)
    (st : RendererState × List RenderEvent) (obj : RenderObject) :
    Except String (RendererState × List RenderEvent) :=
  let (fr, evs) := st
  match mapGet? fr.shadingCache obj.material.id with
  | none => .ok (fr, evs)
  | some shading =>
    match mapGet? fr.geomCache obj.geom.id with
    | some geom => .ok (fr, evs ++ drawEvents fr frameIndex shading geom obj)
    | none =>
      match assets.loadGeomPanicking obj.geom.id with
      | .error e => .error e
      | .ok g =>
        let (geomGpu, c) := GPUGeom.new fr.counter g
        let fr :=
          { fr with
             geomCache := (mapInsert fr.geomCache obj.geom.id geomGpu).2,
             counter := c }
        .ok (fr, evs ++ drawEvents fr frameIndex shading geomGpu obj)

/-- `ForwardRenderer::render` (lines 153-341): write the scene uniform (a
value-level copy, not modelled as an event), run the prepare loop over the
batch, begin the render pass, run the record loop, end the render pass. Any
`Assets::load` panic aborts the whole call. -/
def renderBatch (fr : RendererState) (assets : Assets)
    (objects : List RenderObject) (frameIndex : Nat) :
    Except String (RendererState × List RenderEvent) := do
  let st ← objects.foldlM (prepareObject assets frameIndex)
    (fr, ([] : List RenderEvent))
  let (fr, evs) := st
  let st ← objects.foldlM (recordObject assets frameIndex)
    (fr, evs ++ [RenderEvent.beginRenderPass])
  let (fr, evs) := st
  .ok (fr, evs ++ [RenderEvent.endRenderPass])

/-- A renderer state with empty caches, as produced by
`ForwardRenderer::new` before any batch is rendered; the scene descriptor
sets and the allocator base are parameters. -/
def RendererState.mk0 (sceneSets : List Nat) (c : Nat) : RendererState :=
  ⟨[], [], [], [], sceneSets, c⟩

/-! ## Shutdown teardown traces (src/src/renderer/forward_renderer.rs
lines 795-825, src/src/renderer/gpu_texture.rs lines 131-133) -/

/-- The destroy-type device calls issued during shutdown. -/
inductive TeardownEvent
  | destroyDescriptorSetLayout (id : Nat)
  | destroyShaderModule (id : Nat)
  | destroyPipeline (id : Nat)
  | destroyPipelineLayout (id : Nat)
  | destroyBuffer (id : Nat)
  | freeMemory (id : Nat)
  | destroyFramebuffer (id : Nat)
  | destroyImage (id : Nat)
  | destroyImageView (id : Nat)
  | destroyRenderPass (id : Nat)
  | destroyDescriptorPool (id : Nat)
  | destroySampler (id : Nat)
deriving DecidableEq, Repr

/-- The resources owned by a `ForwardRenderer` at shutdown, as read by
`impl Drop for ForwardRenderer`; the texture and geometry caches are fields
of the struct but are not visited by that `Drop` implementation. -/
structure RendererResources where
  pipelineCache : List (Nat × Pipeline)
  textureCache : List (Nat × GPUTexture)
  geomCache : List (Nat × GPUGeom)
  uniformBuffers : List Nat
  uniformBufferMemories : List Nat
  framebuffers : List Nat
  colorImage : Nat
  colorImageMemory : Nat
  colorImageView : Nat
  depthImage : Nat
  depthImageMemory : Nat
  depthImageView : Nat
  renderPass : Nat
  descriptorSetLayout : Nat
  descriptorPool : Nat
deriving Repr

/-- `ForwardRenderer::clear_cache` (lines 406-420): for every cached
pipeline, destroy the descriptor-set layout, the shader module, the
pipeline, then the pipeline layout. -/
def clearCacheTrace (pipelineCache : List (Nat × Pipeline)) :
    List TeardownEvent :=
  (pipelineCache.map (fun e =>
    [TeardownEvent.destroyDescriptorSetLayout e.2.descriptorSetLayout,
     TeardownEvent.destroyShaderModule e.2.shaderModule,
     TeardownEvent.destroyPipeline e.2.pipeline,
     TeardownEvent.destroyPipelineLayout e.2.pipelineLayout])).flatten

/-- `impl Drop for ForwardRenderer` (lines 795-825), in source order:
`clear_cache`, uniform buffers, uniform memories, framebuffers, then for the
color target IMAGE, MEMORY, VIEW (in that order), likewise for the depth
target, then render pass, descriptor-set layout and descriptor pool. The
texture and geometry caches receive no teardown here. -/
def rendererDropTrace (fr : RendererResources) : List TeardownEvent :=
  clearCacheTrace fr.pipelineCache
  ++ fr.uniformBuffers.map TeardownEvent.destroyBuffer
  ++ fr.uniformBufferMemories.map TeardownEvent.freeMemory
  ++ fr.framebuffers.map TeardownEvent.destroyFramebuffer
  ++ [TeardownEvent.destroyImage fr.colorImage,
      TeardownEvent.freeMemory fr.colorImageMemory,
      TeardownEvent.destroyImageView fr.colorImageView,
      TeardownEvent.destroyImage fr.depthImage,
      TeardownEvent.freeMemory fr.depthImageMemory,
      TeardownEvent.destroyImageView fr.depthImageView,
      TeardownEvent.destroyRenderPass fr.renderPass,
      TeardownEvent.destroyDescriptorSetLayout fr.descriptorSetLayout,
      TeardownEvent.destroyDescriptorPool fr.descriptorPool]

/-- `GPUTexture::drop` (src/src/renderer/gpu_texture.rs lines 131-133): the
method body is an empty `unsafe` block, so no teardown call is issued for
the image, memory, view or sampler. -/
def gpuTextureDropTrace (_t : GPUTexture) : List TeardownEvent :=
  []

/-! ## Concrete inputs used to evaluate the embedded code -/

/-- A small decoded texture used as concrete cache input. -/
def c1Texture : Texture :=
  ⟨4, 4, 3, [0]⟩

/-- An asset store holding a texture under id 1 and a geometry under id 2. -/
def c1Store : Assets :=
  ⟨[(1, .texture c1Texture), (2, .geometry ⟨[0], [0, 1, 2]⟩)]⟩

/-- A fresh `GPUAssets` cache over `c1Store` with allocator base 100. -/
def c1State : GPUAssets :=
  .mk0 c1Store 100

/-- A queue-family table with one family serving graphics, compute and
present. -/
def c2Families : List QueueFamilyProperties :=
  [⟨true, true, true⟩]

/-- A fully qualified integrated GPU with a small maximum image dimension:
score 1000 + 24. -/
def c2Integrated : PhysicalDevice :=
  ⟨.integratedGpu, 24, c2Families, true, true,
   [⟨.b8g8r8a8Srgb, .srgbNonlinear⟩], [.fifo]⟩

/-- A fully qualified discrete GPU with a large maximum image dimension:
score 10000 + 1000. -/
def c2Discrete : PhysicalDevice :=
  ⟨.discreteGpu, 1000, c2Families, true, true,
   [⟨.b8g8r8a8Srgb, .srgbNonlinear⟩], [.fifo]⟩

/-- A discrete GPU without sampler-anisotropy support: disqualified,
score 0. -/
def c2NoAniso : PhysicalDevice :=
  ⟨.discreteGpu, 2000, c2Families, true, false,
   [⟨.b8g8r8a8Srgb, .srgbNonlinear⟩], [.fifo]⟩

/-- Asset store for the render-batch evaluation: a geometry under id 3, a
material under id 5 referencing texture id 7, and the texture under id 7.
Material id 99 is NOT registered. -/
def c5Store : Assets :=
  ⟨[(3, .geometry ⟨[0], [0, 1, 2]⟩),
    (5, .material ⟨some ⟨7⟩⟩),
    (7, .texture c1Texture)]⟩

/-- A render object whose material handle 99 was never registered. -/
def c5ObjBad : RenderObject :=
  ⟨⟨3⟩, ⟨99⟩, 0⟩

/-- A render object whose geometry, material and texture all resolve. -/
def c5ObjGood : RenderObject :=
  ⟨⟨3⟩, ⟨5⟩, 1⟩

/-- Asset store extending `c5Store` with a material under id 6 whose texture
handle 77 was never registered. -/
def c5TexStore : Assets :=
  ⟨[(3, .geometry ⟨[0], [0, 1, 2]⟩),
    (5, .material ⟨some ⟨7⟩⟩),
    (7, .texture c1Texture),
    (6, .material ⟨some ⟨77⟩⟩)]⟩

/-- A render object whose material resolves but references the unregistered
texture handle 77. -/
def c5ObjTexBad : RenderObject :=
  ⟨⟨3⟩, ⟨6⟩, 2⟩

/-- Renderer resources at shutdown: one cached pipeline (shader module 20,
descriptor-set layout 21, pipeline layout 22, pipeline 23), one cached
texture (image 10, memory 11, view 12, sampler 13), color target image 1 /
memory 2 / view 3, depth target image 4 / memory 5 / view 6. -/
def c6Resources : RendererResources :=
  ⟨[(0, ⟨20, 21, 22, 23⟩)], [(7, ⟨10, 11, 12, 13⟩)], [], [30], [31],
   [40, 41], 1, 2, 3, 4, 5, 6, 50, 51, 52⟩

end Mirage

namespace Mirage

/-! ## Helper lemmas about the association-list map model -/

/-- Lookup in the empty map. -/
theorem mapGet?_nil {α : Type} (k : Nat) :
    mapGet? ([] : List (Nat × α)) k = none :=
  rfl

/-- Lookup distributes over cons as a conditional on the stored key. -/
theorem mapGet?_cons {α : Type} (j k : Nat) (v : α) (l : List (Nat × α)) :
    mapGet? ((j, v) :: l) k = if j = k then some v else mapGet? l k := by
  by_cases hj : j = k
  · subst hj
    simp [mapGet?, List.find?]
  · have hb : (j == k) = false := by
      simpa using hj
    simp [mapGet?, List.find?, hb, hj]

/-! ## C1: cache get-or-create return value -/

/-- C1: evaluation of `GPUAssets::get_texture` / `get_geom` at a store where
handle 1 (texture) and handle 2 (geometry) resolve. The FIRST call
materializes the resource and caches it, but returns `None`, because the
returned value is `HashMap::insert`'s result — the PREVIOUS entry at the
key; only later calls return the cached resource (and they leave the GPU
allocator untouched). This refutes the claim that the first call returns the
newly materialized resource. -/
theorem C1_cache_first_call_returns_none :
    (c1State.getTexture ⟨1⟩).1 = none
    ∧ mapGet? (c1State.getTexture ⟨1⟩).2.texturePool 1
        = some ⟨100, 101, 102, 103⟩
    ∧ ((c1State.getTexture ⟨1⟩).2.getTexture ⟨1⟩).1
        = some ⟨100, 101, 102, 103⟩
    ∧ ((c1State.getTexture ⟨1⟩).2.getTexture ⟨1⟩).2.gpuCounter
        = (c1State.getTexture ⟨1⟩).2.gpuCounter
    ∧ (c1State.getGeom ⟨2⟩).1 = none
    ∧ ((c1State.getGeom ⟨2⟩).2.getGeom ⟨2⟩).1.isSome = true := by
  decide

/-! ## C2: physical-device selection -/

/-- C2: evaluation of `Device::pick_physical_device` on two qualified
devices. The scoring matches the claim (discrete 11000 beats integrated
1024), but the selection takes `BTreeMap::first_key_value` — the SMALLEST
score — so the integrated device is chosen over the discrete one; and when a
disqualified device (score 0) is present its zero key is the minimum, so
startup panics even though a qualifying device exists. This refutes the
claim that the highest-scoring device with score above zero is selected. -/
theorem C2_picks_lowest_scoring_device :
    ratePhysicalDeviceSuitability c2Discrete = 11000
    ∧ ratePhysicalDeviceSuitability c2Integrated = 1024
    ∧ ratePhysicalDeviceSuitability c2NoAniso = 0
    ∧ pickPhysicalDevice [c2Integrated, c2Discrete] = some c2Integrated
    ∧ pickPhysicalDevice [c2NoAniso, c2Discrete] = none := by
  decide

/-! ## C3: frame-slot rotation and fence discipline -/

/-- C3: with `FRAMES_IN_FLIGHT = 2` slots, the frame index starts at 0 and
advances as `(current + 1) mod N` exactly once per `Mirage::render` call, so
after `k` completed frames the active slot is `k mod 2`; all fences are
created SIGNALED by `create_sync_objects`; and within each render call the
slot fence is waited on and reset before the slot command buffer is reset
for reuse. -/
theorem C3_frame_slot_rotation :
    framesInFlight = 2
    ∧ (∀ k : Nat, frameIndexAfter framesInFlight k = k % framesInFlight)
    ∧ (∀ n : Nat,
        ((createSyncObjects n).2.2).all (fun f => f.signaled) = true)
    ∧ (∀ slot : Nat, (renderEvents slot).take 4
        = [.waitFence slot, .acquireImage slot, .resetFence slot,
           .resetCommandBuffer slot]) := by
  refine ⟨rfl, ?_, ?_, fun slot => rfl⟩
  · intro k
    induction k with
    | zero => rfl
    | succ k ih =>
      show nextFrameIndex framesInFlight (frameIndexAfter framesInFlight k)
        = (k + 1) % framesInFlight
      rw [ih]
      show (k % 2 + 1) % 2 = (k + 1) % 2
      omega
  · intro n
    simp only [createSyncObjects, List.all_eq_true]
    intro f hf
    rw [List.eq_of_mem_replicate hf]

/-! ## C4: cache keying -/

/-- Behaviour of `GPUAssets::get_pipeline` on a cache miss starting from
empty pools: the material is resolved, a pipeline is materialized against
the render pass and cached, and the call returns the previous map entry,
`none`. -/
theorem getPipeline_mk0_miss (a : Assets) (hid rp1 c : Nat) (m : MaterialAsset)
    (hm : a.loadMaterial? hid = some m) :
    (GPUAssets.mk0 a c).getPipeline ⟨hid⟩ rp1
      = (none, ⟨a, [(hid, [(rp1, ⟨c, c + 1, c + 3, c + 2, [c + 4, c + 5]⟩)])],
          [], [], c + 6⟩) := by
  simp [GPUAssets.getPipeline, GPUAssets.mk0, mapGet?, mapInsert,
    GPUPipeline.new, hm, List.filter]

/-- Behaviour of `GPUAssets::get_pipeline` for a material whose inner map
holds a pipeline for a DIFFERENT render pass: a second pipeline is
materialized and cached next to the first. -/
theorem getPipeline_second_pass (a : Assets) (hid rp1 rp2 c : Nat)
    (P1 : GPUPipeline) (m : MaterialAsset)
    (hm : a.loadMaterial? hid = some m) (hrp : rp1 ≠ rp2) :
    GPUAssets.getPipeline ⟨a, [(hid, [(rp1, P1)])], [], [], c⟩ ⟨hid⟩ rp2
      = (none, ⟨a, [(hid, [(rp2, ⟨c, c + 1, c + 3, c + 2, [c + 4, c + 5]⟩),
          (rp1, P1)])], [], [], c + 6⟩) := by
  simp [GPUAssets.getPipeline, mapGet?, mapInsert, GPUPipeline.new, hm, hrp,
    List.filter, List.find?]

/-- Behaviour of `GPUAssets::get_pipeline` on a hit for the SAME render
pass: the cached pipeline is returned and the state is unchanged (no new GPU
objects). -/
theorem getPipeline_same_pass_hit (a : Assets) (hid rp1 c : Nat)
    (P1 : GPUPipeline) :
    GPUAssets.getPipeline ⟨a, [(hid, [(rp1, P1)])], [], [], c⟩ ⟨hid⟩ rp1
      = (some P1, ⟨a, [(hid, [(rp1, P1)])], [], [], c⟩) := by
  simp [GPUAssets.getPipeline, mapGet?, mapInsert, List.filter, List.find?]

/-- Behaviour of `GPUAssets::get_texture` on a miss from empty pools. -/
theorem getTexture_mk0_miss (a : Assets) (tid c : Nat) (t : Texture)
    (ht : a.loadTexture? tid = some t) :
    (GPUAssets.mk0 a c).getTexture ⟨tid⟩
      = (none, ⟨a, [], [], [(tid, ⟨c, c + 1, c + 2, c + 3⟩)], c + 4⟩) := by
  simp [GPUAssets.getTexture, GPUAssets.mk0, mapGet?, mapInsert,
    GPUTexture.new, ht]

/-- Behaviour of `GPUAssets::get_texture` on a pool hit: the cached resource
is returned and the state is unchanged. -/
theorem getTexture_pool_hit (a : Assets) (tid c : Nat) (T : GPUTexture)
    (pp : List (Nat × List (Nat × GPUPipeline))) (gp : List (Nat × GPUGeom)) :
    GPUAssets.getTexture ⟨a, pp, gp, [(tid, T)], c⟩ ⟨tid⟩
      = (some T, ⟨a, pp, gp, [(tid, T)], c⟩) := by
  simp [GPUAssets.getTexture, mapGet?, List.find?]

/-- Behaviour of `GPUAssets::get_geom` on a miss from empty pools. -/
theorem getGeom_mk0_miss (a : Assets) (gid c : Nat) (g : Geom)
    (hg : a.loadGeom? gid = some g) :
    (GPUAssets.mk0 a c).getGeom ⟨gid⟩
      = (none, ⟨a, [], [(gid, ⟨c, c + 1, c + 2, c + 3, g.indices.length⟩)],
          [], c + 4⟩) := by
  simp [GPUAssets.getGeom, GPUAssets.mk0, mapGet?, mapInsert, GPUGeom.new, hg]

/-- Behaviour of `GPUAssets::get_geom` on a pool hit. -/
theorem getGeom_pool_hit (a : Assets) (gid c : Nat) (G : GPUGeom)
    (pp : List (Nat × List (Nat × GPUPipeline))) (tp : List (Nat × GPUTexture)) :
    GPUAssets.getGeom ⟨a, pp, [(gid, G)], tp, c⟩ ⟨gid⟩
      = (some G, ⟨a, pp, [(gid, G)], tp, c⟩) := by
  simp [GPUAssets.getGeom, mapGet?, List.find?]

/-- C4: pipelines are keyed by (material handle id, render pass): requesting
a resolvable material against two DIFFERENT render passes leaves two cached
pipelines with distinct underlying GPU pipeline identities, while requesting
it twice against the SAME render pass leaves exactly one cached entry and
the second request does not change the cache state at all; textures and
geometries are keyed by handle id alone — a repeated request hits the single
cached entry and returns it unchanged. -/
theorem C4_pipeline_keying (a : Assets) (hid rp1 rp2 tid gid c : Nat)
    (m : MaterialAsset) (t : Texture) (g : Geom)
    (hm : a.loadMaterial? hid = some m) (hrp : rp1 ≠ rp2)
    (ht : a.loadTexture? tid = some t) (hg : a.loadGeom? gid = some g) :
    (let sTwo := (((GPUAssets.mk0 a c).getPipeline ⟨hid⟩ rp1).2.getPipeline
        ⟨hid⟩ rp2).2
     ∃ p1 p2 : GPUPipeline,
       mapGet? ((mapGet? sTwo.pipelinePool hid).getD []) rp1 = some p1
       ∧ mapGet? ((mapGet? sTwo.pipelinePool hid).getD []) rp2 = some p2
       ∧ p1.pipeline ≠ p2.pipeline
       ∧ ((mapGet? sTwo.pipelinePool hid).getD []).length = 2)
    ∧ (let sOne := ((GPUAssets.mk0 a c).getPipeline ⟨hid⟩ rp1).2
       (sOne.getPipeline ⟨hid⟩ rp1).2 = sOne
       ∧ ((mapGet? sOne.pipelinePool hid).getD []).length = 1)
    ∧ (let tOne := ((GPUAssets.mk0 a c).getTexture ⟨tid⟩).2
       (tOne.getTexture ⟨tid⟩).2 = tOne
       ∧ (tOne.getTexture ⟨tid⟩).1.isSome = true
       ∧ mapCount tOne.texturePool tid = 1)
    ∧ (let gOne := ((GPUAssets.mk0 a c).getGeom ⟨gid⟩).2
       (gOne.getGeom ⟨gid⟩).2 = gOne
       ∧ (gOne.getGeom ⟨gid⟩).1.isSome = true
       ∧ mapCount gOne.geomPool gid = 1) := by
  have h1 := getPipeline_mk0_miss a hid rp1 c m hm
  have h2 := getPipeline_second_pass a hid rp1 rp2 (c + 6)
    ⟨c, c + 1, c + 3, c + 2, [c + 4, c + 5]⟩ m hm hrp
  have h3 := getPipeline_same_pass_hit a hid rp1 (c + 6)
    ⟨c, c + 1, c + 3, c + 2, [c + 4, c + 5]⟩
  have ht1 := getTexture_mk0_miss a tid c t ht
  have ht2 := getTexture_pool_hit a tid (c + 4) ⟨c, c + 1, c + 2, c + 3⟩ [] []
  have hg1 := getGeom_mk0_miss a gid c g hg
  have hg2 := getGeom_pool_hit a gid (c + 4)
    ⟨c, c + 1, c + 2, c + 3, g.indices.length⟩ [] []
  refine ⟨?_, ?_, ?_, ?_⟩
  · simp only [h1, h2]
    refine ⟨⟨c, c + 1, c + 3, c + 2, [c + 4, c + 5]⟩,
      ⟨c + 6, c + 6 + 1, c + 6 + 3, c + 6 + 2, [c + 6 + 4, c + 6 + 5]⟩,
      ?_, ?_, ?_, ?_⟩
    · simp [mapGet?_cons, hrp, Ne.symm hrp]
    · simp [mapGet?_cons]
    · simp
    · simp [mapGet?_cons]
  · simp only [h1, h3]
    simp [mapGet?_cons]
  · simp only [ht1, ht2]
    simp [mapCount]
  · simp only [hg1, hg2]
    simp [mapCount]

/-- C4 witness: the theorem applied to a store resolving material 5, texture
9 and geometry 3, with render passes 11 and 22 and allocator base 100;
stated through the pipeline-keying part of the conclusion. -/
theorem C4_pipeline_keying_witness :
    (c5Store.loadMaterial? 5 = some ⟨some ⟨7⟩⟩)
    ∧ (11 : Nat) ≠ 22
    ∧ (c5Store.loadTexture? 7 = some c1Texture)
    ∧ (c5Store.loadGeom? 3 = some ⟨[0], [0, 1, 2]⟩)
    ∧ (let sTwo := (((GPUAssets.mk0 c5Store 100).getPipeline ⟨5⟩ 11).2.getPipeline
        ⟨5⟩ 22).2
       ∃ p1 p2 : GPUPipeline,
         mapGet? ((mapGet? sTwo.pipelinePool 5).getD []) 11 = some p1
         ∧ mapGet? ((mapGet? sTwo.pipelinePool 5).getD []) 22 = some p2
         ∧ p1.pipeline ≠ p2.pipeline
         ∧ ((mapGet? sTwo.pipelinePool 5).getD []).length = 2) :=
  ⟨by decide, by decide, by decide, by decide,
   (C4_pipeline_keying c5Store 5 11 22 7 3 100 ⟨some ⟨7⟩⟩ c1Texture
      ⟨[0], [0, 1, 2]⟩ (by decide) (by decide) (by decide) (by decide)).1⟩

/-! ## C5: unresolvable handles during rendering -/

/-- C5 counterexample: a batch holding a render object whose material handle
99 was never registered, next to a fully resolvable object, makes
`ForwardRenderer::render` panic inside `Assets::load`
(`pool.get(&handle.id).unwrap()`), instead of skipping the object and
drawing the valid one. -/
theorem C5_unresolved_material_panics :
    renderBatch (RendererState.mk0 [90, 91] 100) c5Store
        [c5ObjBad, c5ObjGood] 0
      = Except.error unwrapNoneMsg := by
  rfl

/-- Lookup of an absent key is still absent after filtering. -/
theorem mapGet?_filter_none {α : Type} (l : List (Nat × α))
    (p : Nat × α → Bool) (k : Nat) (h : mapGet? l k = none) :
    mapGet? (l.filter p) k = none := by
  induction l with
  | nil => rfl
  | cons x t ih =>
    obtain ⟨j, v⟩ := x
    rw [mapGet?_cons] at h
    by_cases hj : j = k
    · simp [hj] at h
    · rw [if_neg hj] at h
      rw [List.filter_cons]
      by_cases hp : p (j, v) = true
      · rw [if_pos hp, mapGet?_cons, if_neg hj]
        exact ih h
      · rw [if_neg hp]
        exact ih h

/-- Unfolding of the prepare loop on a non-empty batch. -/
theorem foldlM_prepare_cons (a : Assets) (fi : Nat)
    (st : RendererState × List RenderEvent) (x : RenderObject)
    (rest : List RenderObject) :
    (x :: rest).foldlM (prepareObject a fi) st
      = prepareObject a fi st x >>= fun st2 =>
          rest.foldlM (prepareObject a fi) st2 := by
  rfl

/-- `preprocess_material` always succeeds (the shading mode is always
Unlit), leaves the material id present in the shading cache, and never
touches the texture cache. -/
theorem preprocessMaterial_ok (fr : RendererState) (materialId : Nat) :
    ∃ fr2, preprocessMaterial fr materialId = Except.ok fr2
      ∧ (mapGet? fr2.shadingCache materialId).isSome = true
      ∧ fr2.textureCache = fr.textureCache := by
  unfold preprocessMaterial
  simp only [shadingDefLoad]
  by_cases hsh : (mapGet? fr.shadingCache materialId).isSome = true
  · rw [if_pos hsh]
    simp only [bne_self_eq_false]
    exact ⟨fr, by simp, hsh, rfl⟩
  · simp only [bne_self_eq_false, Bool.false_eq_true, if_false, if_neg hsh]
    cases hp : mapGet? fr.pipelineCache 0 with
    | none =>
      simp only [hp]
      exact ⟨_, rfl, by simp [mapGet?_cons, mapInsert], rfl⟩
    | some p =>
      simp only [hp]
      exact ⟨_, rfl, by simp [mapGet?_cons, mapInsert], rfl⟩

/-- The prepare loop body panics (inside `Assets::load`) on an object whose
material handle is absent from the asset store pool. -/
theorem prepareObject_material_missing (a : Assets) (fi : Nat)
    (fr : RendererState) (evs : List RenderEvent) (obj : RenderObject)
    (hmat : mapGet? a.pool obj.material.id = none) :
    prepareObject a fi (fr, evs) obj = Except.error unwrapNoneMsg := by
  obtain ⟨fr2, hpre, hsh, -⟩ := preprocessMaterial_ok fr obj.material.id
  obtain ⟨sh, hsh2⟩ := Option.isSome_iff_exists.mp hsh
  unfold prepareObject
  simp only [hpre, hsh2, Assets.loadMaterialPanicking, hmat]

/-- The prepare loop body panics (inside the nested `Assets::load`) on an
object whose material resolves but references a texture handle that is
neither in the texture cache nor in the asset store pool. -/
theorem prepareObject_texture_missing (a : Assets) (fi : Nat)
    (fr : RendererState) (evs : List RenderEvent) (obj : RenderObject)
    (m : MaterialAsset) (texh : AssetHandle)
    (hmat : mapGet? a.pool obj.material.id = some (AssetValue.material m))
    (htex : m.tex = some texh)
    (hpool : mapGet? a.pool texh.id = none)
    (hcache : mapGet? fr.textureCache texh.id = none) :
    prepareObject a fi (fr, evs) obj = Except.error unwrapNoneMsg := by
  obtain ⟨fr2, hpre, hsh, htc⟩ := preprocessMaterial_ok fr obj.material.id
  obtain ⟨sh, hsh2⟩ := Option.isSome_iff_exists.mp hsh
  unfold prepareObject
  simp only [hpre, hsh2, Assets.loadMaterialPanicking, hmat, htex, htc,
    hcache, Assets.loadTexturePanicking, hpool]

/-- A successful prepare step never inserts a texture whose handle does not
resolve in the pool: a pool-unresolvable id absent from the texture cache
stays absent. -/
theorem prepareObject_preserves_cache_miss (a : Assets) (fi : Nat)
    (fr : RendererState) (evs : List RenderEvent) (obj : RenderObject)
    (st2 : RendererState × List RenderEvent) (X : Nat)
    (hok : prepareObject a fi (fr, evs) obj = Except.ok st2)
    (hX : mapGet? a.pool X = none)
    (hmiss : mapGet? fr.textureCache X = none) :
    mapGet? st2.1.textureCache X = none := by
  obtain ⟨fr2, hpre, -, htc⟩ := preprocessMaterial_ok fr obj.material.id
  unfold prepareObject at hok
  simp only [hpre] at hok
  cases hsh2 : mapGet? fr2.shadingCache obj.material.id with
  | none =>
    simp only [hsh2] at hok
    cases hok
    simpa [htc] using hmiss
  | some sh =>
    simp only [hsh2] at hok
    cases hl : a.loadMaterialPanicking obj.material.id with
    | error e =>
      simp only [hl] at hok
      exact Except.noConfusion hok
    | ok m =>
      simp only [hl] at hok
      cases htx : m.tex with
      | none =>
        simp only [htx] at hok
        cases hok
        simpa [htc] using hmiss
      | some texh =>
        simp only [htx] at hok
        cases hc : mapGet? fr2.textureCache texh.id with
        | some tex =>
          simp only [hc] at hok
          cases hok
          simpa [htc] using hmiss
        | none =>
          simp only [hc] at hok
          cases hlt : a.loadTexturePanicking texh.id with
          | error e =>
            simp only [hlt] at hok
            exact Except.noConfusion hok
          | ok t =>
            simp only [hlt] at hok
            cases hok
            have hne : texh.id ≠ X := by
              intro hEq
              unfold Assets.loadTexturePanicking at hlt
              rw [hEq, hX] at hlt
              cases hlt
            show mapGet? (mapInsert fr2.textureCache texh.id _).2 X = none
            rw [mapInsert]
            rw [mapGet?_cons, if_neg hne]
            exact mapGet?_filter_none _ _ _ (htc ▸ hmiss)

/-- The prepare loop over any batch holding an object with an unresolvable
material handle, or a resolvable material whose texture handle resolves
neither in the texture cache nor in the pool, aborts with a panic. -/
theorem prepareFold_error (a : Assets) (fi : Nat) (objs : List RenderObject) :
    ∀ (fr : RendererState) (evs : List RenderEvent),
    (∃ obj ∈ objs,
       mapGet? a.pool obj.material.id = none
       ∨ ∃ m texh, mapGet? a.pool obj.material.id
             = some (AssetValue.material m)
           ∧ m.tex = some texh ∧ mapGet? a.pool texh.id = none
           ∧ mapGet? fr.textureCache texh.id = none) →
    ∃ e, objs.foldlM (prepareObject a fi) (fr, evs) = Except.error e := by
  induction objs with
  | nil =>
    intro fr evs h
    obtain ⟨obj, hmem, -⟩ := h
    cases hmem
  | cons x rest ih =>
    intro fr evs hbad
    obtain ⟨obj, hmem, hcase⟩ := hbad
    rw [List.mem_cons] at hmem
    rcases hmem with rfl | hmem
    · rcases hcase with hmat | ⟨m, texh, hm, htex, hpool, hcache⟩
      · refine ⟨unwrapNoneMsg, ?_⟩
        rw [foldlM_prepare_cons,
          prepareObject_material_missing a fi fr evs obj hmat]
        rfl
      · refine ⟨unwrapNoneMsg, ?_⟩
        rw [foldlM_prepare_cons,
          prepareObject_texture_missing a fi fr evs obj m texh hm htex
            hpool hcache]
        rfl
    · cases hstep : prepareObject a fi (fr, evs) x with
      | error e =>
        refine ⟨e, ?_⟩
        rw [foldlM_prepare_cons, hstep]
        rfl
      | ok st2 =>
        have hbad2 : ∃ obj ∈ rest,
            mapGet? a.pool obj.material.id = none
            ∨ ∃ m texh, mapGet? a.pool obj.material.id
                  = some (AssetValue.material m)
                ∧ m.tex = some texh ∧ mapGet? a.pool texh.id = none
                ∧ mapGet? st2.1.textureCache texh.id = none := by
          refine ⟨obj, hmem, ?_⟩
          rcases hcase with hmat | ⟨m, texh, hm, htex, hpool, hcache⟩
          · exact Or.inl hmat
          · exact Or.inr ⟨m, texh, hm, htex, hpool,
              prepareObject_preserves_cache_miss a fi fr evs x st2 texh.id
                hstep hpool hcache⟩
        obtain ⟨e, he⟩ := ih st2.1 st2.2 hbad2
        refine ⟨e, ?_⟩
        rw [foldlM_prepare_cons, hstep]
        simpa using he

/-- C5 amended: for any batch, any renderer state and any frame index, if
some render object references a material handle that fails to resolve in
the asset store, or a resolvable material whose texture handle fails to
resolve (and is not already materialized in the texture cache), then the
whole `ForwardRenderer::render` call aborts with a panic raised by
`Assets::load`: no event is recorded and no object of the batch is drawn.
(Per-object skipping without panic exists only on the soft paths: a missing
shading-cache entry or a material without a texture.) -/
theorem C5_amended_unresolved_reference_aborts_frame (a : Assets)
    (fr : RendererState) (objs : List RenderObject) (frameIndex : Nat)
    (hbad : ∃ obj ∈ objs,
       mapGet? a.pool obj.material.id = none
       ∨ ∃ m texh, mapGet? a.pool obj.material.id
             = some (AssetValue.material m)
           ∧ m.tex = some texh ∧ mapGet? a.pool texh.id = none
           ∧ mapGet? fr.textureCache texh.id = none) :
    ∃ e, renderBatch fr a objs frameIndex = Except.error e := by
  obtain ⟨e, he⟩ := prepareFold_error a frameIndex objs fr [] hbad
  refine ⟨e, ?_⟩
  unfold renderBatch
  rw [he]
  rfl

/-- C5 witness: the amended theorem applied to a fresh renderer and the
batch [resolvable object, object whose material references the unregistered
texture handle 77] — the unresolved-texture case, with the bad object in
second position. -/
theorem C5_amended_witness :
    (∃ obj ∈ [c5ObjGood, c5ObjTexBad],
       mapGet? c5TexStore.pool obj.material.id = none
       ∨ ∃ m texh, mapGet? c5TexStore.pool obj.material.id
             = some (AssetValue.material m)
           ∧ m.tex = some texh ∧ mapGet? c5TexStore.pool texh.id = none
           ∧ mapGet? (RendererState.mk0 [90, 91] 100).textureCache texh.id
               = none)
    ∧ ∃ e, renderBatch (RendererState.mk0 [90, 91] 100) c5TexStore
        [c5ObjGood, c5ObjTexBad] 0 = Except.error e := by
  have hbad : ∃ obj ∈ [c5ObjGood, c5ObjTexBad],
      mapGet? c5TexStore.pool obj.material.id = none
      ∨ ∃ m texh, mapGet? c5TexStore.pool obj.material.id
            = some (AssetValue.material m)
          ∧ m.tex = some texh ∧ mapGet? c5TexStore.pool texh.id = none
          ∧ mapGet? (RendererState.mk0 [90, 91] 100).textureCache texh.id
              = none :=
    ⟨c5ObjTexBad, by decide,
     Or.inr ⟨⟨some ⟨77⟩⟩, ⟨77⟩, by decide, rfl, by decide, by decide⟩⟩
  exact ⟨hbad,
    C5_amended_unresolved_reference_aborts_frame c5TexStore
      (RendererState.mk0 [90, 91] 100) [c5ObjGood, c5ObjTexBad] 0 hbad⟩

/-! ## C6: teardown completeness and ordering -/

/-- C6: evaluation of the shutdown traces at `c6Resources`. The cached
pipeline is destroyed before its layout (as claimed), but `GPUTexture::drop`
issues no teardown at all — the cached texture image 10 (and view 12) never
receives a destroy call — and `ForwardRenderer::drop` destroys the color
image 1 and frees its memory BEFORE destroying its view 3. This refutes the
claimed exactly-once teardown in dependency order. -/
theorem C6_teardown_trace_eval :
    gpuTextureDropTrace ⟨10, 11, 12, 13⟩ = []
    ∧ (rendererDropTrace c6Resources).count (.destroyImage 10) = 0
    ∧ (rendererDropTrace c6Resources).count (.destroyImageView 12) = 0
    ∧ (.destroyImageView 3) ∈ rendererDropTrace c6Resources
    ∧ (rendererDropTrace c6Resources).indexOf (.destroyImage 1)
        < (rendererDropTrace c6Resources).indexOf (.destroyImageView 3)
    ∧ (rendererDropTrace c6Resources).indexOf (.destroyPipeline 23)
        < (rendererDropTrace c6Resources).indexOf (.destroyPipelineLayout 22)
    ∧ (rendererDropTrace c6Resources).count (.destroyPipeline 23) = 1 := by
  decide

/-! ## C7: mip-level count formula -/

/-- C7: the mip-level count computed for a decoded texture of positive
dimensions equals `floor (logb 2 (min width height)) + 1`; in particular
width 512, height 256 yields 9 levels and width = height = 1 yields 1. -/
theorem C7_mip_level_count (w hgt : Nat) (hpos : 0 < Nat.min w hgt) :
    ((textureMipLevels w hgt : ℤ)
        = ⌊Real.logb 2 ((Nat.min w hgt : Nat) : ℝ)⌋ + 1)
    ∧ textureMipLevels 512 256 = 9
    ∧ textureMipLevels 1 1 = 1 := by
  refine ⟨?_, ?_, ?_⟩
  · have hfloor : ⌊Real.logb 2 ((Nat.min w hgt : Nat) : ℝ)⌋
        = Int.log 2 ((Nat.min w hgt : Nat) : ℝ) := by
      have h := Real.floor_logb_natCast (b := 2)
        (r := ((Nat.min w hgt : Nat) : ℝ)) (Nat.cast_nonneg _)
      simpa using h
    rw [hfloor, Int.log_natCast]
    simp only [textureMipLevels, Nat.log2_eq_log_two]
    push_cast
    ring
  · have h256 : Nat.log 2 256 = 8 :=
      Nat.log_eq_of_pow_le_of_lt_pow (by norm_num) (by norm_num)
    simp [textureMipLevels, Nat.log2_eq_log_two, Nat.min_def, h256]
  · simp [textureMipLevels, Nat.log2_eq_log_two, Nat.log_one_right]

/-- C7 witness: the theorem applied at width 512, height 256. -/
theorem C7_mip_level_count_witness :
    (0 < Nat.min 512 256)
    ∧ (((textureMipLevels 512 256 : ℤ)
          = ⌊Real.logb 2 ((Nat.min 512 256 : Nat) : ℝ)⌋ + 1)
       ∧ textureMipLevels 512 256 = 9
       ∧ textureMipLevels 1 1 = 1) :=
  ⟨by decide, C7_mip_level_count 512 256 (by decide)⟩

/-! ## C8: swapchain image count -/

/-- C8 counterexample: a surface-capability report with
`min_image_count = 2` and `max_image_count = 0` (the Vulkan sentinel for
"no maximum") makes `(min + 1).clamp(min, max)` panic — Rust `clamp`
asserts its bounds are ordered — so no image count is requested for this
report, refuting the claim as stated over every report. -/
theorem C8_zero_max_image_count_panics :
    swapChainImageCount ⟨2, 0⟩ = none := by
  decide

/-- C8 amended: whenever the reported range is ordered
(`min_image_count ≤ max_image_count`), the requested image count equals
`min_image_count + 1` clamped into `[min_image_count, max_image_count]`. -/
theorem C8_amended_image_count (caps : SurfaceCapabilities)
    (hle : caps.minImageCount ≤ caps.maxImageCount) :
    swapChainImageCount caps
      = some (max caps.minImageCount
          (min (caps.minImageCount + 1) caps.maxImageCount)) := by
  unfold swapChainImageCount rustClamp
  rw [if_pos hle]
  congr 1
  split_ifs <;> omega

/-- C8 witness: the amended theorem applied at min 2, max 3. -/
theorem C8_amended_image_count_witness :
    ((2 : Nat) ≤ 3)
    ∧ swapChainImageCount ⟨2, 3⟩ = some (max 2 (min (2 + 1) 3)) :=
  ⟨by decide, C8_amended_image_count ⟨2, 3⟩ (by decide)⟩

/-! ## C10: accepted layout transitions -/

/-- C10: `GPU::transition_image_layout` accepts exactly the four layout
pairs (undefined to transfer-destination, transfer-destination to
transfer-source, transfer-destination to shader-read-only, undefined to
depth-stencil-attachment) and panics on every other pair; and every layout
transition `GPUTexture::new` issues, for any mip-level count, is one of the
four accepted pairs, so the panic branch is unreachable on that path. -/
theorem C10_transition_layout_pairs :
    (∀ p : ImageLayout × ImageLayout,
      (transitionImageLayoutMasks p.1 p.2).isSome = true
        ↔ p ∈ supportedTransitions)
    ∧ (∀ mipLevels : Nat, ∀ p ∈ gpuTextureNewTransitions mipLevels,
        (transitionImageLayoutMasks p.1 p.2).isSome = true) := by
  constructor
  · intro p
    obtain ⟨a, b⟩ := p
    cases a <;> cases b <;> decide
  · intro mipLevels p hp
    unfold gpuTextureNewTransitions at hp
    by_cases hm : mipLevels > 1
    · simp only [if_pos hm, List.mem_singleton] at hp
      subst hp
      decide
    · simp only [if_neg hm, List.mem_cons, List.mem_singleton,
        List.not_mem_nil, or_false] at hp
      rcases hp with rfl | rfl <;> decide

/-! ## C9: surface-format selection for qualified devices -/

/-- C9: for every physical device that passed qualification (a positive
suitability score forces non-empty surface-format and present-mode lists),
`SwapChain::choose_surface_format` returns a format without hitting the
`surface_formats[0]` index panic. -/
theorem C9_qualified_device_surface_format (d : PhysicalDevice)
    (hq : 0 < ratePhysicalDeviceSuitability d) :
    (chooseSurfaceFormat d.surfaceFormats).isSome = true := by
  have hne : d.surfaceFormats ≠ [] := by
    intro hempty
    have hrate : ratePhysicalDeviceSuitability d = 0 := by
      unfold ratePhysicalDeviceSuitability
      simp [hempty]
    omega
  rcases hfs : d.surfaceFormats with _ | ⟨f, rest⟩
  · exact absurd hfs hne
  · rcases hfind : (f :: rest).find?
        (fun x => x.format == VkFormat.b8g8r8a8Srgb
          && x.colorSpace == ColorSpace.srgbNonlinear) with _ | g
    · simp [chooseSurfaceFormat, hfind]
    · simp [chooseSurfaceFormat, hfind]

/-- C9 witness: the theorem applied to a fully qualified discrete GPU. -/
theorem C9_qualified_device_surface_format_witness :
    (0 < ratePhysicalDeviceSuitability c2Discrete)
    ∧ (chooseSurfaceFormat c2Discrete.surfaceFormats).isSome = true :=
  ⟨by decide, C9_qualified_device_surface_format c2Discrete (by decide)⟩

/-- C10 witness: the second part of the theorem applied at mip-level count 1
and the transfer-destination to shader-read-only pair. -/
theorem C10_transition_layout_pairs_witness :
    ((ImageLayout.transferDstOptimal, ImageLayout.shaderReadOnlyOptimal)
        ∈ gpuTextureNewTransitions 1)
    ∧ (transitionImageLayoutMasks ImageLayout.transferDstOptimal
        ImageLayout.shaderReadOnlyOptimal).isSome = true :=
  ⟨by decide, C10_transition_layout_pairs.2 1
    (ImageLayout.transferDstOptimal, ImageLayout.shaderReadOnlyOptimal)
    (by decide)⟩

end Mirage
